import Mathlib

/-!
Verification development for the `pod_protocol` Python SDK's off-chain
compression pipeline: the content-addressed IPFS storage service
(`pod_protocol/services/ipfs.py`) and the ZK compression / batching service
(`pod_protocol/services/zk_compression.py`).

Python values are shallowly embedded:
* a Python `str` is a list of Unicode code points (`PyStr`);
* a Python `bytes` is a list of byte values (`PyBytes`);
* `hashlib.sha256` is implemented bit-for-bit (FIPS 180-4) over byte lists;
* dataclasses become structures, `None`/optional fields become `Option`;
* code that raises returns `Except`; code that cannot raise stays total.
-/

namespace PodProtocol

/-- A Python `str`, as its list of Unicode code points. -/
abbrev PyStr := List Nat

/-- A Python `bytes` value, as a list of byte values. -/
abbrev PyBytes := List Nat

/-- Convenience: build a `PyStr` from a Lean string literal. -/
def pyStr (s : String) : PyStr := s.data.map Char.toNat

/-- UTF-8 encoding of a single code point (Python `str.encode('utf-8')`). -/
def utf8EncodeChar (c : Nat) : PyBytes :=
  if c < 0x80 then [c]
  else if c < 0x800 then
    [0xC0 ||| (c >>> 6), 0x80 ||| (c &&& 0x3F)]
  else if c < 0x10000 then
    [0xE0 ||| (c >>> 12), 0x80 ||| ((c >>> 6) &&& 0x3F), 0x80 ||| (c &&& 0x3F)]
  else
    [0xF0 ||| (c >>> 18), 0x80 ||| ((c >>> 12) &&& 0x3F),
     0x80 ||| ((c >>> 6) &&& 0x3F), 0x80 ||| (c &&& 0x3F)]

/-- UTF-8 encoding of a whole string (Python `str.encode('utf-8')`). -/
def utf8Encode (s : PyStr) : PyBytes := (s.map utf8EncodeChar).flatten

/-- Lower-case hex character for a value below 16 (as a code point). -/
def hexChar (n : Nat) : Nat := if n < 10 then 48 + n else 87 + n

/-- Python `bytes.hex()` / `hashlib...hexdigest()`: two lower-case hex
characters per byte. -/
def bytesHex (b : PyBytes) : PyStr :=
  (b.map (fun v => [hexChar (v / 16), hexChar (v % 16)])).flatten

/-! ## SHA-256 (FIPS 180-4), the model of Python's `hashlib.sha256` -/

/-- 2^32, the word modulus of SHA-256. -/
def U32 : Nat := 4294967296

/-- Right rotation of a 32-bit word. -/
def rotr32 (n x : Nat) : Nat := ((x >>> n) ||| (x <<< (32 - n))) % U32

/-- The 64 SHA-256 round constants (FIPS 180-4 §4.2.2, in decimal). -/
def sha256K : List Nat :=
  [1116352408, 1899447441, 3049323471, 3921009573, 961987163, 1508970993,
   2453635748, 2870763221, 3624381080, 310598401, 607225278, 1426881987,
   1925078388, 2162078206, 2614888103, 3248222580, 3835390401, 4022224774,
   264347078, 604807628, 770255983, 1249150122, 1555081692, 1996064986,
   2554220882, 2821834349, 2952996808, 3210313671, 3336571891, 3584528711,
   113926993, 338241895, 666307205, 773529912, 1294757372, 1396182291,
   1695183700, 1986661051, 2177026350, 2456956037, 2730485921, 2820302411,
   3259730800, 3345764771, 3516065817, 3600352804, 4094571909, 275423344,
   430227734, 506948616, 659060556, 883997877, 958139571, 1322822218,
   1537002063, 1747873779, 1955562222, 2024104815, 2227730452, 2361852424,
   2428436474, 2756734187, 3204031479, 3329325298]

/-- The eight-word SHA-256 working state. -/
structure SHAState where
  a : Nat
  b : Nat
  c : Nat
  d : Nat
  e : Nat
  f : Nat
  g : Nat
  h : Nat

/-- The SHA-256 initial hash value (FIPS 180-4 §5.3.3, in decimal). -/
def sha256H0 : SHAState :=
  ⟨1779033703, 3144134277, 1013904242, 2773480762,
   1359893119, 2600822924, 528734635, 1541459225⟩

/-- Big-endian 8-byte encoding of a length (in bits). -/
def toBE64 (n : Nat) : PyBytes :=
  [(n >>> 56) % 256, (n >>> 48) % 256, (n >>> 40) % 256, (n >>> 32) % 256,
   (n >>> 24) % 256, (n >>> 16) % 256, (n >>> 8) % 256, n % 256]

/-- Big-endian 4-byte encoding of a 32-bit word. -/
def toBE32 (n : Nat) : PyBytes :=
  [(n >>> 24) % 256, (n >>> 16) % 256, (n >>> 8) % 256, n % 256]

/-- SHA-256 message padding: append `0x80`, zeros to 56 mod 64, then the
bit length as 8 big-endian bytes. -/
def sha256Pad (msg : PyBytes) : PyBytes :=
  msg ++ [0x80] ++ List.replicate ((119 - msg.length % 64) % 64) 0
      ++ toBE64 (8 * msg.length)

/-- Split a byte list into 64-byte blocks (structural on a fuel that bounds
the length, so the kernel can evaluate it). -/
def chunks64Aux (fuel : Nat) (l : PyBytes) : List PyBytes :=
  match fuel, l with
  | 0, _ => []
  | _ + 1, [] => []
  | fuel + 1, a :: rest => (a :: rest).take 64 :: chunks64Aux fuel ((a :: rest).drop 64)

/-- Split a byte list into 64-byte blocks. -/
def chunks64 (l : PyBytes) : List PyBytes := chunks64Aux l.length l

/-- The sixteen 32-bit words of one 64-byte block (big-endian). -/
def blockWords (block : PyBytes) : List Nat :=
  (List.range 16).map fun i =>
    (block.getD (4 * i) 0) <<< 24 + (block.getD (4 * i + 1) 0) <<< 16 +
    (block.getD (4 * i + 2) 0) <<< 8 + block.getD (4 * i + 3) 0

/-- One step of the SHA-256 message-schedule extension. -/
def scheduleStep (w : List Nat) : List Nat :=
  let i := w.length
  let s0 := rotr32 7 (w.getD (i - 15) 0) ^^^ rotr32 18 (w.getD (i - 15) 0) ^^^
            (w.getD (i - 15) 0 >>> 3)
  let s1 := rotr32 17 (w.getD (i - 2) 0) ^^^ rotr32 19 (w.getD (i - 2) 0) ^^^
            (w.getD (i - 2) 0 >>> 10)
  w ++ [(w.getD (i - 16) 0 + s0 + w.getD (i - 7) 0 + s1) % U32]

/-- Extend the message schedule by `n` further words. -/
def extendSchedule : Nat → List Nat → List Nat
  | 0, w => w
  | n + 1, w => extendSchedule n (scheduleStep w)

/-- One SHA-256 compression round, consuming a `(round constant, word)` pair. -/
def shaRound (s : SHAState) (kw : Nat × Nat) : SHAState :=
  let S1 := rotr32 6 s.e ^^^ rotr32 11 s.e ^^^ rotr32 25 s.e
  let ch := (s.e &&& s.f) ^^^ ((s.e ^^^ 0xffffffff) &&& s.g)
  let t1 := (s.h + S1 + ch + kw.1 + kw.2) % U32
  let S0 := rotr32 2 s.a ^^^ rotr32 13 s.a ^^^ rotr32 22 s.a
  let maj := (s.a &&& s.b) ^^^ (s.a &&& s.c) ^^^ (s.b &&& s.c)
  let t2 := (S0 + maj) % U32
  ⟨(t1 + t2) % U32, s.a, s.b, s.c, (s.d + t1) % U32, s.e, s.f, s.g⟩

/-- Process one 64-byte block: run the 64 rounds and add into the state. -/
def processBlock (H : SHAState) (block : PyBytes) : SHAState :=
  let w := extendSchedule 48 (blockWords block)
  let s := (sha256K.zip w).foldl shaRound H
  ⟨(H.a + s.a) % U32, (H.b + s.b) % U32, (H.c + s.c) % U32, (H.d + s.d) % U32,
   (H.e + s.e) % U32, (H.f + s.f) % U32, (H.g + s.g) % U32, (H.h + s.h) % U32⟩

/-- SHA-256 digest (32 bytes) of a byte string: Python `hashlib.sha256(b).digest()`. -/
def sha256 (msg : PyBytes) : PyBytes :=
  let Hf := (chunks64 (sha256Pad msg)).foldl processBlock sha256H0
  toBE32 Hf.a ++ toBE32 Hf.b ++ toBE32 Hf.c ++ toBE32 Hf.d ++
  toBE32 Hf.e ++ toBE32 Hf.f ++ toBE32 Hf.g ++ toBE32 Hf.h

/-- Python `hashlib.sha256(b).hexdigest()`. -/
def sha256Hex (msg : PyBytes) : PyStr := bytesHex (sha256 msg)

/-! ## Python `sorted` on strings

Python compares strings lexicographically by code point; a proper prefix is
smaller. `sorted` returns the list sorted by that order. -/

/-- Boolean `a <= b` on Python strings (lexicographic by code point). -/
def pyStrLe : PyStr → PyStr → Bool
  | [], _ => true
  | _ :: _, [] => false
  | a :: sa, b :: sb => if a < b then true else if b < a then false else pyStrLe sa sb

/-- The order relation underlying Python string comparison. -/
def pyLe (a b : PyStr) : Prop := pyStrLe a b = true

instance : DecidableRel pyLe := fun a b =>
  inferInstanceAs (Decidable (pyStrLe a b = true))

theorem pyStrLe_total : ∀ a b : PyStr, pyStrLe a b = true ∨ pyStrLe b a = true
  | [], _ => Or.inl rfl
  | _ :: _, [] => Or.inr rfl
  | a :: sa, b :: sb => by
    rcases Nat.lt_trichotomy a b with h | h | h
    · left; simp [pyStrLe, h]
    · subst h
      rcases pyStrLe_total sa sb with h' | h'
      · left; simp [pyStrLe, h']
      · right; simp [pyStrLe, h']
    · right; simp [pyStrLe, h]

theorem pyStrLe_trans : ∀ a b c : PyStr, pyStrLe a b = true → pyStrLe b c = true →
    pyStrLe a c = true
  | [], _, _, _, _ => rfl
  | _ :: _, [], _, hab, _ => by simp [pyStrLe] at hab
  | _ :: _, _ :: _, [], _, hbc => by simp [pyStrLe] at hbc
  | a :: sa, b :: sb, c :: sc, hab, hbc => by
    simp only [pyStrLe] at hab hbc ⊢
    rcases Nat.lt_trichotomy a b with h1 | h1 | h1
    · rcases Nat.lt_trichotomy b c with h2 | h2 | h2
      · have hac : a < c := Nat.lt_trans h1 h2
        simp [hac]
      · subst h2; simp [h1]
      · simp [h2, Nat.lt_asymm h2] at hbc
    · subst h1
      rcases Nat.lt_trichotomy a c with h2 | h2 | h2
      · simp [h2]
      · subst h2
        simp only [Nat.lt_irrefl, if_false] at hab hbc ⊢
        exact pyStrLe_trans sa sb sc hab hbc
      · simp [h2, Nat.lt_asymm h2] at hbc
    · simp [h1, Nat.lt_asymm h1] at hab

theorem pyStrLe_antisymm : ∀ a b : PyStr, pyStrLe a b = true → pyStrLe b a = true →
    a = b
  | [], [], _, _ => rfl
  | [], _ :: _, _, hba => by simp [pyStrLe] at hba
  | _ :: _, [], hab, _ => by simp [pyStrLe] at hab
  | a :: sa, b :: sb, hab, hba => by
    simp only [pyStrLe] at hab hba
    rcases Nat.lt_trichotomy a b with h | h | h
    · simp [h, Nat.lt_asymm h] at hba
    · subst h
      simp only [Nat.lt_irrefl, if_false] at hab hba
      exact congrArg (a :: ·) (pyStrLe_antisymm sa sb hab hba)
    · simp [h, Nat.lt_asymm h] at hab

instance : IsTotal PyStr pyLe := ⟨pyStrLe_total⟩

instance : IsTrans PyStr pyLe := ⟨pyStrLe_trans⟩

instance : IsAntisymm PyStr pyLe := ⟨pyStrLe_antisymm⟩

/-- Python `sorted` on a list of strings. -/
def pySorted (l : List PyStr) : List PyStr := List.insertionSort pyLe l

/-- Two lists of strings that are permutations of one another sort equal. -/
theorem pySorted_eq_of_perm {l l' : List PyStr} (h : l.Perm l') :
    pySorted l = pySorted l' :=
  List.eq_of_perm_of_sorted
    ((List.perm_insertionSort pyLe l).trans (h.trans (List.perm_insertionSort pyLe l').symm))
    (List.sorted_insertionSort pyLe l) (List.sorted_insertionSort pyLe l')

/-! ## JSON serialization helpers (Python `json.dumps`)

Only the fragments the source exercises are modelled: string escaping with
`ensure_ascii=True` (the default), decimal integers, flat string lists, and
the two fixed-shape dictionaries built by the services, with `json.dumps`'s
default separators `", "` and `": "`. -/

/-- Decimal digits (as code points) of a natural number, for `json.dumps`
of a Python int. -/
def natToDec (n : Nat) : PyStr :=
  if h : n < 10 then [48 + n]
  else natToDec (n / 10) ++ [48 + n % 10]
termination_by n
decreasing_by exact Nat.div_lt_self (by omega) (by omega)

/-- Four upper-case-free hex digits, for `\uXXXX` escapes. -/
def hex4 (n : Nat) : PyStr :=
  [hexChar ((n >>> 12) % 16), hexChar ((n >>> 8) % 16),
   hexChar ((n >>> 4) % 16), hexChar (n % 16)]

/-- A `\uXXXX` escape (with a surrogate pair above the BMP), as
`json.dumps` emits with `ensure_ascii=True`. -/
def jsonUnicodeEscape (c : Nat) : PyStr :=
  if c < 0x10000 then [92, 117] ++ hex4 c
  else
    [92, 117] ++ hex4 (0xD800 + (c - 0x10000) / 0x400) ++
    [92, 117] ++ hex4 (0xDC00 + (c - 0x10000) % 0x400)

/-- `json.dumps` escaping of one character (default `ensure_ascii=True`). -/
def jsonEscapeChar (c : Nat) : PyStr :=
  if c = 34 then [92, 34]
  else if c = 92 then [92, 92]
  else if c = 8 then [92, 98]
  else if c = 9 then [92, 116]
  else if c = 10 then [92, 110]
  else if c = 12 then [92, 102]
  else if c = 13 then [92, 114]
  else if c < 32 || 126 < c then jsonUnicodeEscape c
  else [c]

/-- `json.dumps` encoding of a Python string: quoted and escaped. -/
def jsonStr (s : PyStr) : PyStr :=
  [34] ++ (s.map jsonEscapeChar).flatten ++ [34]

/-- Comma-space separator interposed by `json.dumps`'s default separators. -/
def jsonJoin (items : List PyStr) : PyStr :=
  (items.intersperse (pyStr ", ")).flatten

/-- `json.dumps` encoding of a flat list of strings. -/
def jsonStrList (l : List PyStr) : PyStr :=
  [91] ++ jsonJoin (l.map jsonStr) ++ [93]

/-- `json.dumps` encoding of `None`. -/
def jsonNull : PyStr := pyStr "null"

/-- `json.dumps` of an optional int. -/
def jsonOptNat : Option Nat → PyStr
  | none => jsonNull
  | some n => natToDec n

/-- `json.dumps` of an optional string. -/
def jsonOptStr : Option PyStr → PyStr
  | none => jsonNull
  | some s => jsonStr s

/-! ## `pod_protocol/services/ipfs.py` : `IPFSService`

The mock in-memory backend: `self._storage` is a dict from hex content
hashes to stored bytes, modelled as an association list. Python `raise
Exception(...)` becomes an `IPFSError` value; the outer `except` clauses
only re-wrap the message, so each error keeps its identity. -/

/-- `IPFSConfig` dataclass. -/
structure IPFSConfig where
  disabled : Bool := false
  timeout : Nat := 30000
  gatewayUrl : PyStr := pyStr "https://ipfs.io/ipfs"

/-- `IPFSStorageResult` dataclass. -/
structure IPFSStorageResult where
  hash : PyStr
  cid : PyStr
  size : Nat
  url : PyStr

/-- The mutable part of `IPFSService`: its config and mock `_storage` dict. -/
structure IPFSServiceState where
  config : IPFSConfig
  storage : List (PyStr × PyBytes)

/-- The exceptions `IPFSService` raises: `"IPFS functionality is disabled"`
and `"Content not found: {hash}"` (re-wrapped by the outer handlers as
`"Failed to ...: {e}"`, which preserves which error occurred). -/
inductive IPFSError where
  | storageDisabled : IPFSError
  | notFound : PyStr → IPFSError
deriving DecidableEq

/-- Python dict membership `key in d`. -/
def dictContains (d : List (PyStr × PyBytes)) (k : PyStr) : Bool :=
  d.any fun p => p.1 == k

/-- Python dict lookup `d[key]`. -/
def dictGet (d : List (PyStr × PyBytes)) (k : PyStr) : Option PyBytes :=
  (d.find? fun p => p.1 == k).map (·.2)

/-- Python dict update `d[key] = v`. -/
def dictInsert (d : List (PyStr × PyBytes)) (k : PyStr) (v : PyBytes) :
    List (PyStr × PyBytes) :=
  if dictContains d k then d.map fun p => if p.1 == k then (k, v) else p
  else d ++ [(k, v)]

/-- `IPFSService.store_json(data)`. The Python code serializes `data` with
`json.dumps(data, sort_keys=True)`; the serialized string is taken as the
argument here. -/
def store_json (st : IPFSServiceState) (jsonString : PyStr) :
    Except IPFSError (IPFSStorageResult × IPFSServiceState) :=
  if st.config.disabled then .error .storageDisabled
  else
    let jsonBytes := utf8Encode jsonString
    let contentHash := sha256Hex jsonBytes
    .ok ({ hash := contentHash, cid := contentHash, size := jsonBytes.length,
           url := st.config.gatewayUrl ++ pyStr "/" ++ contentHash },
         { st with storage := dictInsert st.storage contentHash jsonBytes })

/-- `IPFSService.retrieve_json(hash)` (the decoded value is the stored
bytes; `json.loads` of what `store_json` stored round-trips). -/
def retrieve_json (st : IPFSServiceState) (hash : PyStr) :
    Except IPFSError PyBytes :=
  if st.config.disabled then .error .storageDisabled
  else
    match dictGet st.storage hash with
    | none => .error (.notFound hash)
    | some b => .ok b

/-- `IPFSService.pin_content(hash)`. -/
def pin_content (st : IPFSServiceState) (hash : PyStr) : Except IPFSError Unit :=
  if st.config.disabled then .error .storageDisabled
  else if dictContains st.storage hash then .ok () else .error (.notFound hash)

/-- `IPFSService.unpin_content(hash)`. -/
def unpin_content (st : IPFSServiceState) (hash : PyStr) : Except IPFSError Unit :=
  if st.config.disabled then .error .storageDisabled
  else if dictContains st.storage hash then .ok () else .error (.notFound hash)

/-- The dict `IPFSService.get_node_info` returns. -/
structure IPFSNodeInfo where
  id : PyStr
  agentVersion : PyStr
  protocolVersion : PyStr
  storageItems : Nat

/-- `IPFSService.get_node_info()`. -/
def get_node_info (st : IPFSServiceState) : Except IPFSError IPFSNodeInfo :=
  if st.config.disabled then .error .storageDisabled
  else .ok { id := pyStr "mock-ipfs-node", agentVersion := pyStr "mock-ipfs-python",
             protocolVersion := pyStr "1.0.0", storageItems := st.storage.length }

/-- `IPFSService.content_exists(hash)`: returns a bool and swallows every
exception (`except Exception: return False`), so it is total. -/
def content_exists (st : IPFSServiceState) (hash : PyStr) : Bool :=
  if st.config.disabled then false
  else dictContains st.storage hash

/-- Zeroing byte 0 of a digest (`field_sized_hash[0] = 0`). -/
def setByte0Zero : PyBytes → PyBytes
  | [] => []
  | _ :: rest => 0 :: rest

/-- `IPFSService.create_content_hash(content)`: SHA-256 of the UTF-8 bytes
with a `0xFF` bump seed appended, first byte zeroed, hex-encoded. -/
def create_content_hash (content : PyStr) : PyStr :=
  let contentBytes := utf8Encode content
  let combined := contentBytes ++ [0xff]
  let fieldSizedHash := setByte0Zero (sha256 combined)
  bytesHex fieldSizedHash

/-- `ParticipantExtendedMetadata` dataclass (`custom_data` is an arbitrary
JSON-like dict, modelled as a string-to-string association list). -/
structure ParticipantExtendedMetadata where
  displayName : Option PyStr := none
  avatar : Option PyStr := none
  permissions : Option (List PyStr) := none
  customData : Option (List (PyStr × PyStr)) := none
  lastUpdated : Nat := 0

/-- `json.dumps(metadata_dict, sort_keys=True)` for the fixed dict built in
`create_metadata_hash`; its sorted key order is `avatar`, `display_name`,
`last_updated`, `permissions`. -/
def metadataCanonicalJson (displayName avatar : PyStr) (permissions : List PyStr)
    (lastUpdated : Nat) : PyStr :=
  pyStr "\x7b\"avatar\": " ++ jsonStr avatar ++
  pyStr ", \"display_name\": " ++ jsonStr displayName ++
  pyStr ", \"last_updated\": " ++ natToDec lastUpdated ++
  pyStr ", \"permissions\": " ++ jsonStrList permissions ++ pyStr "\x7d"

/-- `IPFSService.create_metadata_hash(metadata)`: hashes a dict holding
only `display_name`, `avatar`, `permissions` and `last_updated` (Python's
`x or default` collapses `None` and empty values to the default). -/
def create_metadata_hash (metadata : ParticipantExtendedMetadata) : PyStr :=
  create_content_hash
    (metadataCanonicalJson (metadata.displayName.getD []) (metadata.avatar.getD [])
      (metadata.permissions.getD []) metadata.lastUpdated)

/-! ## `pod_protocol/services/zk_compression.py` : `ZKCompressionService`

`PublicKey` is imported from `..types`, where no such name is defined; the
spec treats channel/sender identifiers as opaque 32-byte ids. They are
modelled as strings (so the JSON serialization in the batch signature is
defined). `await`ed calls on the injected IPFS service are modelled by
passing their outcome as an argument; each `asyncio` suspension point cuts
the coroutine, and what runs after a suspension is a separate function. -/

/-- An opaque channel/sender identifier. -/
abbrev PublicKey := PyStr

/-- The batching-relevant fields of the `ZKCompressionConfig` dataclass. -/
structure ZKCompressionConfig where
  maxBatchSize : Nat := 100
  batchSize : Option Nat := none
  enableBatching : Bool := true
  batchTimeout : Nat := 5000

/-- `CompressedChannelMessage` dataclass. -/
structure CompressedChannelMessage where
  channel : PublicKey
  sender : PublicKey
  contentHash : PyStr
  ipfsHash : PyStr
  messageType : PyStr
  createdAt : Nat
  editedAt : Option Nat := none
  replyTo : Option PublicKey := none

/-- `CompressedAccount` dataclass (`data` is always the message's
`__dict__` where this service builds it; `merkle_context` is always
`None`). -/
structure CompressedAccount where
  hash : PyStr
  data : CompressedChannelMessage
  merkleContext : Option Unit := none

/-- `BatchCompressionResult` dataclass. -/
structure BatchCompressionResult where
  signature : PyStr
  compressedAccounts : List CompressedAccount
  merkleRoot : PyStr

/-- The dict stored in `self.last_batch_result`. -/
structure LastBatchResult where
  signature : PyStr
  compressedAccounts : List CompressedAccount
  timestamp : Nat

/-- The mutable state of `ZKCompressionService`: the batch queue, the
timer handle (`self.batch_timer`, which the code only ever assigns `None`,
hence always `false` here) and the last batch result. -/
structure ZKServiceState where
  batchQueue : List CompressedChannelMessage := []
  batchTimer : Bool := false
  lastBatchResult : Option LastBatchResult := none

/-- `ZKCompressionService._create_local_hash(data)`. -/
def create_local_hash (data : PyStr) : PyStr := sha256Hex (utf8Encode data)

/-- `ZKCompressionService._calculate_mock_merkle_root(hashes)`: the empty
list maps to `"0" * 64`; otherwise the hashes are SORTED, concatenated and
SHA-256-hashed. -/
def calculate_mock_merkle_root (hashes : List PyStr) : PyStr :=
  if hashes.isEmpty then List.replicate 64 48
  else sha256Hex (utf8Encode (pySorted hashes).flatten)

/-- `json.dumps(acc.data)` for one compressed message (dict insertion
order, i.e. dataclass field order; default separators). -/
def messageDataJson (m : CompressedChannelMessage) : PyStr :=
  pyStr "\x7b\"channel\": " ++ jsonStr m.channel ++
  pyStr ", \"sender\": " ++ jsonStr m.sender ++
  pyStr ", \"content_hash\": " ++ jsonStr m.contentHash ++
  pyStr ", \"ipfs_hash\": " ++ jsonStr m.ipfsHash ++
  pyStr ", \"message_type\": " ++ jsonStr m.messageType ++
  pyStr ", \"created_at\": " ++ natToDec m.createdAt ++
  pyStr ", \"edited_at\": " ++ jsonOptNat m.editedAt ++
  pyStr ", \"reply_to\": " ++ jsonOptStr m.replyTo ++ pyStr "\x7d"

/-- `ZKCompressionService.batch_compress_messages(messages)`: builds one
`CompressedAccount` per message, a mock signature (local hash of the
JSON-dumped account data) and the mock Merkle root of the account hashes. -/
def batch_compress_messages (messages : List CompressedChannelMessage) :
    BatchCompressionResult :=
  let compressedAccounts := messages.map fun m =>
    { hash := m.contentHash, data := m, merkleContext := none }
  let batchData := [91] ++ jsonJoin (messages.map messageDataJson) ++ [93]
  { signature := create_local_hash batchData
    compressedAccounts := compressedAccounts
    merkleRoot := calculate_mock_merkle_root (compressedAccounts.map (·.hash)) }

/-- `ZKCompressionService._process_batch()`: a no-op on an empty queue;
otherwise compresses the queue, records `last_batch_result` and clears the
queue. (In this embedding `batch_compress_messages` is total, so the
Python `except` branch that would keep the queue is unreachable.) -/
def process_batch (st : ZKServiceState) (now : Nat) : ZKServiceState :=
  if st.batchQueue.isEmpty then st
  else
    let result := batch_compress_messages st.batchQueue
    let lastResult : LastBatchResult :=
      { signature := result.signature
        compressedAccounts := result.compressedAccounts
        timestamp := now }
    { st with batchQueue := [], batchTimer := false, lastBatchResult := some lastResult }

/-- `self.config.batch_size or self.config.max_batch_size` (Python `or`:
`None` and `0` both fall back to `max_batch_size`). -/
def effectiveMaxBatchSize (cfg : ZKCompressionConfig) : Nat :=
  match cfg.batchSize with
  | some n => if n = 0 then cfg.maxBatchSize else n
  | none => cfg.maxBatchSize

/-- `ZKCompressionService._add_to_batch(message)`: append to the queue and
flush at once when it reaches the effective max batch size. Below the
threshold the code `await`s `_start_batch_timer`, whose first action is
`asyncio.sleep` — a suspension; its post-sleep continuation is
`start_batch_timer_resume` below. -/
def add_to_batch (cfg : ZKCompressionConfig) (st : ZKServiceState)
    (message : CompressedChannelMessage) (now : Nat) : ZKServiceState :=
  let st1 := { st with batchQueue := st.batchQueue ++ [message] }
  if effectiveMaxBatchSize cfg ≤ st1.batchQueue.length then process_batch st1 now
  else st1

/-- What `ZKCompressionService._start_batch_timer` does after its
`asyncio.sleep(batch_timeout / 1000)` elapses: flush a non-empty queue. -/
def start_batch_timer_resume (st : ZKServiceState) (now : Nat) : ZKServiceState :=
  if st.batchQueue.isEmpty then st else process_batch st now

/-- The exception `compress_channel_message` re-raises (`"Failed to
compress channel message: {e}"`). -/
inductive CompressError where
  | storageFailed : IPFSError → CompressError
deriving DecidableEq

/-- The shared tail of `compress_channel_message` after the hashes are
known: build the message and account, batch (or process the single
compression, a `pass`), and return the account. -/
def compressProceed (cfg : ZKCompressionConfig) (st : ZKServiceState)
    (channel sender : PublicKey) (messageType : PyStr)
    (replyTo : Option PublicKey) (now : Nat) (contentHash ipfsHash : PyStr) :
    Except CompressError CompressedAccount × ZKServiceState :=
  let message : CompressedChannelMessage :=
    { channel, sender, contentHash, ipfsHash, messageType,
      createdAt := now, editedAt := none, replyTo }
  let account : CompressedAccount :=
    { hash := contentHash, data := message, merkleContext := none }
  let st1 := if cfg.enableBatching then add_to_batch cfg st message now else st
  (.ok account, st1)

/-- `ZKCompressionService.compress_channel_message(...)`. `ipfsStore` is
the outcome of `await self.ipfs_service.store_message_content(content)`:
`none` when no IPFS service is configured (the constructor default
`ipfs_service=None`, taking the local-hash fallback branch), otherwise the
store result or the exception it raised. `now` is `int(time.time()*1000)`.
Returns the Python return-or-raise outcome together with the state the
service is left in. -/
def compress_channel_message (cfg : ZKCompressionConfig) (st : ZKServiceState)
    (ipfsStore : Option (Except IPFSError IPFSStorageResult))
    (channel sender : PublicKey) (content : PyStr) (messageType : PyStr)
    (replyTo : Option PublicKey) (now : Nat) :
    Except CompressError CompressedAccount × ZKServiceState :=
  match ipfsStore with
  | some (.error e) => (.error (.storageFailed e), st)
  | some (.ok ipfsResult) =>
    compressProceed cfg st channel sender messageType replyTo now
      (create_content_hash content) ipfsResult.hash
  | none =>
    compressProceed cfg st channel sender messageType replyTo now
      (create_local_hash content) (create_local_hash content)

/-- A ZK proof object (`Dict[str, Any]`), modelled as key-value pairs. -/
structure ZKProofData where
  entries : List (PyStr × PyStr)

/-- `ZKCompressionService.verify_compression_proof(proof, public_inputs)`:
the body is `return True` regardless of its arguments ("For now, return
True as mock"). -/
def verify_compression_proof (_proof : ZKProofData)
    (_publicInputs : List PyStr) : Bool :=
  true

/-! ## Sample values used by witnesses -/

/-- A sample compressed message. -/
def sampleMessage : CompressedChannelMessage :=
  { channel := pyStr "chan-1", sender := pyStr "sender-1",
    contentHash := create_local_hash (pyStr "hi"),
    ipfsHash := create_local_hash (pyStr "hi"),
    messageType := pyStr "text", createdAt := 1700000000000,
    editedAt := none, replyTo := none }

/-- A config whose effective max batch size is 1. -/
def sampleConfigMax1 : ZKCompressionConfig :=
  { maxBatchSize := 1, batchSize := none, enableBatching := true, batchTimeout := 5000 }

/-- A config whose effective max batch size is 100 (the default). -/
def sampleConfigDefault : ZKCompressionConfig := {}

/-- An IPFS service state with storage disabled and nothing stored. -/
def sampleDisabledIPFS : IPFSServiceState :=
  { config := { disabled := true, timeout := 30000, gatewayUrl := pyStr "https://ipfs.io/ipfs" },
    storage := [] }

/-- Sample participant metadata without custom data. -/
def sampleMetadataNoCustom : ParticipantExtendedMetadata :=
  { displayName := some (pyStr "alice"), avatar := some (pyStr "avatar.png"),
    permissions := some [pyStr "read", pyStr "write"], customData := none,
    lastUpdated := 1700000000000 }

/-- The same participant metadata with an arbitrary custom-data dict. -/
def sampleMetadataWithCustom : ParticipantExtendedMetadata :=
  { displayName := some (pyStr "alice"), avatar := some (pyStr "avatar.png"),
    permissions := some [pyStr "read", pyStr "write"],
    customData := some [(pyStr "theme", pyStr "dark"), (pyStr "lang", pyStr "en")],
    lastUpdated := 1700000000000 }

/-! ## General lemmas about the embedding -/

/-- A SHA-256 digest always has 32 bytes. -/
theorem sha256_length (msg : PyBytes) : (sha256 msg).length = 32 := by
  simp [sha256, toBE32]

/-- Appending a singleton never yields the empty list. -/
theorem append_singleton_isEmpty {α : Type} (l : List α) (a : α) :
    (l ++ [a]).isEmpty = false := by
  cases l <;> simp

/-- The hex digest of the local hash: sanity anchor for the SHA-256
embedding against `printf 'hello world' | sha256sum`. -/
theorem create_local_hash_vector :
    create_local_hash (pyStr "hello world") =
      pyStr "b94d27b9934d3e08a52e52d7da7dabfac484efe37a5380ee9088f7ace2efcde9" := by
  decide

/-- A second anchor, with the `0xFF` bump seed of `create_content_hash`:
`printf 'hello world\xff' | sha256sum` is `9976ed1a…bc70`, whose first
byte the code zeroes. -/
theorem create_content_hash_vector :
    create_content_hash (pyStr "hello world") =
      pyStr "0076ed1a12ebe5d8e23613edc19d06be805369e73bdbb9f68af0cf4e7502bc70" := by
  decide

/-! ## Claim theorems -/

/-- C1 (counterexample): the claim asserts that some forged leaf fails
verification; but `verify_compression_proof` returns `true` on a concrete
forged proof/leaf pair, and no proof and public inputs whatsoever make it
return `false`. -/
theorem verify_mock_counterexample :
    verify_compression_proof ⟨[(pyStr "root", pyStr "forged-root")]⟩
        [pyStr "forged-leaf"] = true ∧
      ¬ ∃ (p : ZKProofData) (inputs : List PyStr),
          verify_compression_proof p inputs = false := by
  refine ⟨rfl, ?_⟩
  rintro ⟨p, inputs, h⟩
  simp [verify_compression_proof] at h

/-- C1 (amended): `verify_compression_proof` is a mock that returns `true`
for every proof and every public inputs, so genuine leaves verify but
forged leaves verify as well — verification never returns `false`. -/
theorem verify_mock_always_true (p : ZKProofData) (inputs : List PyStr) :
    verify_compression_proof p inputs = true := rfl

/-- C2 (counterexample): the claim asserts that reordering the leaves
changes the root; but for the distinct permuted vectors `["b","a"]` and
`["a","b"]` the computed roots coincide, because
`_calculate_mock_merkle_root` sorts the hashes before concatenating. -/
theorem merkle_root_order_counterexample :
    [pyStr "b", pyStr "a"] ≠ [pyStr "a", pyStr "b"] ∧
      (List.Perm [pyStr "b", pyStr "a"] [pyStr "a", pyStr "b"]) ∧
      calculate_mock_merkle_root [pyStr "b", pyStr "a"] =
        calculate_mock_merkle_root [pyStr "a", pyStr "b"] := by
  refine ⟨by decide, List.Perm.swap _ _ _, by decide⟩

/-- C2 (amended): the Merkle root is permutation-INVARIANT, not
order-sensitive: the hashes are sorted before being concatenated and
hashed, so any two leaf vectors that are permutations of one another have
the same root. -/
theorem merkle_root_perm_invariant (L Lp : List PyStr) (h : L.Perm Lp) :
    calculate_mock_merkle_root L = calculate_mock_merkle_root Lp := by
  cases L with
  | nil =>
    have : Lp = [] := h.symm.eq_nil
    subst this; rfl
  | cons a l =>
    have hne : Lp ≠ [] := by
      intro hnil
      subst hnil
      exact absurd h.eq_nil (by simp)
    have h1 : (a :: l).isEmpty = false := rfl
    have h2 : Lp.isEmpty = false := by
      cases Lp with
      | nil => exact absurd rfl hne
      | cons _ _ => rfl
    rw [calculate_mock_merkle_root, calculate_mock_merkle_root, h1, h2]
    simp only [Bool.false_eq_true, if_false]
    rw [pySorted_eq_of_perm h]

/-- C2 (witness): the permutation-invariance theorem applied to the
three-element vectors `["c","a","b"]` and `["a","b","c"]`. -/
theorem merkle_root_perm_invariant_witness :
    (List.Perm [pyStr "c", pyStr "a", pyStr "b"] [pyStr "a", pyStr "b", pyStr "c"]) ∧
      calculate_mock_merkle_root [pyStr "c", pyStr "a", pyStr "b"] =
        calculate_mock_merkle_root [pyStr "a", pyStr "b", pyStr "c"] := by
  have hp : List.Perm [pyStr "c", pyStr "a", pyStr "b"] [pyStr "a", pyStr "b", pyStr "c"] := by
    decide
  exact ⟨hp, merkle_root_perm_invariant _ _ hp⟩

/-- C3 (counterexample): the claim asserts that the root over a single
leaf `[d]` is `d` itself; but for `d = "d"` the code returns the SHA-256
hex digest of `"d"`, which is not `"d"`. -/
theorem merkle_root_single_leaf_counterexample :
    calculate_mock_merkle_root [pyStr "d"] ≠ pyStr "d" := by decide

/-- C3 (amended): for a single-element leaf vector `[d]` the root is the
SHA-256 hex digest of `d` (the leaf is re-hashed), not the leaf itself. -/
theorem merkle_root_single_leaf (d : PyStr) :
    calculate_mock_merkle_root [d] = sha256Hex (utf8Encode d) := by
  simp [calculate_mock_merkle_root, pySorted, List.insertionSort, List.orderedInsert]

/-- C4 (counterexample): the claim asserts the empty leaf vector is
rejected with an `EmptyInput` error; but `_calculate_mock_merkle_root` has
no failure path and returns the 64-character all-zero string `"0" * 64`
for `[]` — the empty tree IS represented by a root value. -/
theorem merkle_root_empty_counterexample :
    calculate_mock_merkle_root [] =
      pyStr "0000000000000000000000000000000000000000000000000000000000000000" := by
  decide

/-- C4 (amended): building over an empty leaf vector does not fail; every
empty input maps to the all-zero sentinel root (`"0" * 64`, code point 48
repeated 64 times). -/
theorem merkle_root_empty (hashes : List PyStr) (h : hashes = []) :
    calculate_mock_merkle_root hashes = List.replicate 64 48 := by
  subst h; rfl

/-- C4 (witness): the amended theorem applied to the empty list. -/
theorem merkle_root_empty_witness :
    ([] : List PyStr) = [] ∧ calculate_mock_merkle_root [] = List.replicate 64 48 :=
  ⟨rfl, merkle_root_empty [] rfl⟩

/-- C5 (counterexample): the claim asserts that with `disabled=true` EVERY
operation, `exists` included, fails with `StorageDisabled`; but
`content_exists` cannot fail at all — its Python body catches every
exception and returns a bool, and on a disabled store it returns the
value `false` rather than an error. -/
theorem disabled_exists_counterexample :
    content_exists sampleDisabledIPFS (pyStr "somekey") = false := rfl

/-- C5 (amended): with `disabled=true`, `store_json`, `retrieve_json`,
`pin_content`, `unpin_content` and `get_node_info` fail with the
storage-disabled error for every input, while `content_exists` does not
fail and returns `false` for every key. -/
theorem disabled_ops_error (st : IPFSServiceState) (h : st.config.disabled = true) :
    (∀ data, store_json st data = .error .storageDisabled) ∧
    (∀ k, retrieve_json st k = .error .storageDisabled) ∧
    (∀ k, pin_content st k = .error .storageDisabled) ∧
    (∀ k, unpin_content st k = .error .storageDisabled) ∧
    get_node_info st = .error .storageDisabled ∧
    (∀ k, content_exists st k = false) := by
  refine ⟨fun data => ?_, fun k => ?_, fun k => ?_, fun k => ?_, ?_, fun k => ?_⟩ <;>
    simp [store_json, retrieve_json, pin_content, unpin_content, get_node_info,
      content_exists, h]

/-- C5 (witness): the amended theorem applied to a concrete disabled
store, sampled at `store_json` and `content_exists`. -/
theorem disabled_ops_error_witness :
    sampleDisabledIPFS.config.disabled = true ∧
    store_json sampleDisabledIPFS (pyStr "payload") = .error .storageDisabled ∧
    content_exists sampleDisabledIPFS (pyStr "otherkey") = false := by
  have h := disabled_ops_error sampleDisabledIPFS rfl
  exact ⟨rfl, h.1 _, h.2.2.2.2.2 _⟩

/-- C6: `create_content_hash` is SHA-256 of the input bytes with a single
`0xFF` byte appended, byte 0 of the 32-byte digest then set to `0x00`;
consequently the digest's first byte is zero and the returned hex string
starts with `"00"`. -/
theorem field_digest_spec (content : PyStr) (b : PyBytes) :
    create_content_hash content =
      bytesHex (setByte0Zero (sha256 (utf8Encode content ++ [0xff]))) ∧
    (sha256 (b ++ [0xff])).length = 32 ∧
    (setByte0Zero (sha256 (b ++ [0xff]))).headD 1 = 0 ∧
    (create_content_hash content).take 2 = pyStr "00" := by
  refine ⟨rfl, sha256_length _, ?_, ?_⟩
  · cases hsha : sha256 (b ++ [0xff]) with
    | nil =>
      have h32 := sha256_length (b ++ [0xff])
      rw [hsha] at h32
      simp at h32
    | cons hd tl => simp [setByte0Zero]
  · have heq : create_content_hash content =
        bytesHex (setByte0Zero (sha256 (utf8Encode content ++ [0xff]))) := rfl
    cases hsha : sha256 (utf8Encode content ++ [0xff]) with
    | nil =>
      have h32 := sha256_length (utf8Encode content ++ [0xff])
      rw [hsha] at h32
      simp at h32
    | cons hd tl =>
      rw [heq, hsha]
      simp [setByte0Zero, bytesHex, hexChar]
      rfl

/-- C7: with the default backend (the constructor default
`ipfs_service=None`, i.e. the local-hash fallback), every record produced
by `compress_channel_message` has `ipfs_hash` equal to `content_hash`
(both are the local SHA-256 hex digest of the content). -/
theorem default_backend_ipfs_eq_content (cfg : ZKCompressionConfig)
    (st : ZKServiceState) (channel sender : PublicKey)
    (content messageType : PyStr) (replyTo : Option PublicKey) (now : Nat) :
    ∃ account,
      (compress_channel_message cfg st none channel sender content messageType
          replyTo now).1 = .ok account ∧
      account.data.ipfsHash = account.data.contentHash :=
  ⟨_, rfl, rfl⟩

/-- C8: when the storage backend raises during an enqueue, the enqueue
returns the wrapped storage error and the service state — in particular
the batch queue — is exactly the input state: no record is appended. -/
theorem store_failure_queue_unchanged (cfg : ZKCompressionConfig)
    (st : ZKServiceState) (channel sender : PublicKey)
    (content messageType : PyStr) (replyTo : Option PublicKey) (now : Nat)
    (e : IPFSError) :
    compress_channel_message cfg st (some (.error e)) channel sender content
        messageType replyTo now = (.error (.storageFailed e), st) ∧
    (compress_channel_message cfg st (some (.error e)) channel sender content
        messageType replyTo now).2.batchQueue = st.batchQueue :=
  ⟨rfl, rfl⟩

/-- C9: `_add_to_batch` flushes exactly at the threshold: when the
post-enqueue queue length reaches the effective max batch size the batch
is processed at once and the queue is left empty; below the threshold the
appended record stays queued. (`compress_channel_message` calls
`_add_to_batch` precisely when `enable_batching` is set; below the
threshold the timer coroutine only runs after its `asyncio.sleep`
suspension.) -/
theorem batch_threshold_flush (cfg : ZKCompressionConfig) (st : ZKServiceState)
    (message : CompressedChannelMessage) (now : Nat) :
    (effectiveMaxBatchSize cfg ≤ st.batchQueue.length + 1 →
      (add_to_batch cfg st message now).batchQueue = []) ∧
    (st.batchQueue.length + 1 < effectiveMaxBatchSize cfg →
      (add_to_batch cfg st message now).batchQueue = st.batchQueue ++ [message]) := by
  constructor
  · intro h
    simp [add_to_batch, process_batch, append_singleton_isEmpty, h]
  · intro h
    have hn : ¬ effectiveMaxBatchSize cfg ≤ st.batchQueue.length + 1 := by omega
    simp [add_to_batch, hn]

/-- C9 (witness): with max batch size 1 an enqueue into the empty queue
flushes at once; with the default max of 100 it stays queued. -/
theorem batch_threshold_flush_witness :
    effectiveMaxBatchSize sampleConfigMax1 ≤
        (⟨[], false, none⟩ : ZKServiceState).batchQueue.length + 1 ∧
    (add_to_batch sampleConfigMax1 ⟨[], false, none⟩ sampleMessage 5).batchQueue = [] ∧
    (⟨[], false, none⟩ : ZKServiceState).batchQueue.length + 1 <
        effectiveMaxBatchSize sampleConfigDefault ∧
    (add_to_batch sampleConfigDefault ⟨[], false, none⟩ sampleMessage 5).batchQueue =
      (⟨[], false, none⟩ : ZKServiceState).batchQueue ++ [sampleMessage] := by
  refine ⟨by decide, ?_, by decide, ?_⟩
  · exact (batch_threshold_flush sampleConfigMax1 ⟨[], false, none⟩ sampleMessage 5).1
      (by decide)
  · exact (batch_threshold_flush sampleConfigDefault ⟨[], false, none⟩ sampleMessage 5).2
      (by decide)

/-- C10: `create_metadata_hash` ignores `custom_data`: any two metadata
values agreeing on `display_name`, `avatar`, `permissions` and
`last_updated` hash identically, whatever their `custom_data`. -/
theorem metadata_hash_ignores_custom_data (m1 m2 : ParticipantExtendedMetadata)
    (h1 : m1.displayName = m2.displayName) (h2 : m1.avatar = m2.avatar)
    (h3 : m1.permissions = m2.permissions) (h4 : m1.lastUpdated = m2.lastUpdated) :
    create_metadata_hash m1 = create_metadata_hash m2 := by
  simp only [create_metadata_hash, h1, h2, h3, h4]

/-- C10 (witness): the theorem applied to two concrete metadata values
that differ only in `custom_data`. -/
theorem metadata_hash_ignores_custom_data_witness :
    sampleMetadataNoCustom.customData ≠ sampleMetadataWithCustom.customData ∧
    create_metadata_hash sampleMetadataNoCustom =
      create_metadata_hash sampleMetadataWithCustom := by
  refine ⟨by simp [sampleMetadataNoCustom, sampleMetadataWithCustom], ?_⟩
  exact metadata_hash_ignores_custom_data _ _ rfl rfl rfl rfl

end PodProtocol
